import Mathlib

/-!
Verification development for the `httpntlm` package (file `ntlmtransport.go`):
an HTTP round-tripper that performs the three-message NTLM handshake.

The Go code is shallowly embedded as pure Lean functions.  Network effects
(`http.Client.Do`), the response body (`io.Copy` / `Body.Close`) and the
external cryptographic NTLM session engine (`github.com/sematext/go-ntlm`)
are modelled as oracles supplied in an environment `Env`; each call of
`client.Do` consumes the oracle at the next index, and every observable
action (a request being sent, the probe body being drained, the probe body
being closed) is recorded in an event trace.  Go's `(resp, err)` return pair
is kept as a pair of options, exactly as the source returns it.
-/

/-! ### Base64 (modelled: `EncBase64` / `DecBase64` live in `ntlm.go`)

Modelled from the spec: the repository's `ntlm.go` (not part of the sources
under study here) wraps Go's `encoding/base64` standard encoding.  We model
standard base64 with `=` padding over byte values `0 ≤ b < 256`. -/

def b64Alphabet : List Char :=
  "ABCDEFGHIJKLMNOPQRSTUVWXYZabcdefghijklmnopqrstuvwxyz0123456789+/".toList

/-- The base64 character for a sextet value. -/
def encSextet (n : Nat) : Char := b64Alphabet.getD n 'A'

/-- The sextet value of a base64 character, `none` for a character outside
the alphabet (in particular for the padding character). -/
def decChar (c : Char) : Option Nat := b64Alphabet.indexOf? c

/-- Standard base64 encoding of a byte list, three bytes to four characters,
padded with `=`. -/
def encB64Bytes : List Nat → List Char
  | [] => []
  | [a] => [encSextet (a / 4), encSextet (a % 4 * 16), '=', '=']
  | [a, b] => [encSextet (a / 4), encSextet (a % 4 * 16 + b / 16), encSextet (b % 16 * 4), '=']
  | a :: b :: c :: rest =>
      encSextet (a / 4) :: encSextet (a % 4 * 16 + b / 16) ::
      encSextet (b % 16 * 4 + c / 64) :: encSextet (c % 64) :: encB64Bytes rest

/-- Standard base64 decoding: blocks of four characters, padding allowed only
in the final block; a malformed input is an error (Go: `CorruptInputError`). -/
def decB64Chars : List Char → Except String (List Nat)
  | [] => Except.ok []
  | w :: x :: y :: z :: rest =>
    match decChar w, decChar x, decChar y, decChar z with
    | some a, some b, some c, some d =>
        (decB64Chars rest).map
          (fun tail => (a * 4 + b / 16) :: (b % 16 * 16 + c / 4) :: (c % 4 * 64 + d) :: tail)
    | some a, some b, some c, none =>
        if z = '=' ∧ rest = [] then Except.ok [a * 4 + b / 16, b % 16 * 16 + c / 4]
        else Except.error "illegal base64 data"
    | some a, some b, none, none =>
        if y = '=' ∧ z = '=' ∧ rest = [] then Except.ok [a * 4 + b / 16]
        else Except.error "illegal base64 data"
    | _, _, _, _ => Except.error "illegal base64 data"
  | _ => Except.error "illegal base64 data"

/-- Modelled from the spec: `EncBase64` of `ntlm.go`, base64-encode a byte
slice to a string. -/
def EncBase64 (bs : List Nat) : String := String.mk (encB64Bytes bs)

/-- Modelled from the spec: `DecBase64` of `ntlm.go`, base64-decode a string,
failing on malformed input. -/
def DecBase64 (s : String) : Except String (List Nat) := decB64Chars s.toList

/-! ### HTTP data model -/

/-- An HTTP request: method, URL, a header map (association list with
`http.Header.Set` semantics) and a body.  The probe request is built with
`http.NewRequest("GET", url, strings.NewReader(""))`. -/
structure HttpRequest where
  method : String
  url : String
  headers : List (String × String)
  body : String
  deriving DecidableEq

/-- An HTTP response as the handshake observes it: the status code, the
`WWW-Authenticate` header values (in order), and the outcomes of reading
(`io.Copy`) and closing the body, modelled as optional errors. -/
structure HttpResponse where
  statusCode : Nat
  authHeaders : List String
  bodyReadErr : Option String
  bodyCloseErr : Option String
  deriving DecidableEq

/-- The internal `http.Client` built by `RoundTrip`: the optional inner
round-tripper and the optional cookie jar, both taken from the transport. -/
structure HttpClient where
  transport : Option String
  jar : Option String
  deriving DecidableEq

/-- The result of one `client.Do` call.  Per the `http.Client.Do` contract a
call yields either a response (with `err = nil`) or an error (with a `nil`
response). -/
inductive DoResult where
  | ok (resp : HttpResponse)
  | fail (msg : String)
  deriving DecidableEq

/-- Semantics of `http.Header.Set`: replace all values of the key by the
single given value, leaving other keys untouched. -/
def headerSet (hs : List (String × String)) (k v : String) : List (String × String) :=
  (k, v) :: hs.filter (fun p => !(p.1 == k))

/-- Observable events of a handshake, in order: a request sent over a
client, the probe body fully drained, the probe body closed. -/
inductive Event where
  | send (client : HttpClient) (req : HttpRequest)
  | drainBody
  | closeBody
  deriving DecidableEq

/-- The errors `ntlmRoundTrip` / `RoundTrip` can return, one constructor per
`return nil, err` site of the source.  `emptyNtlm` is the sentinel
`errEmptyNtlm = errors.New("empty NTLM challenge")`; `headerMissing` is
`"WWW-Authenticate header missing"`; `wrongHeader` is
`"wrong WWW-Authenticate header"`. -/
inductive RTError where
  | transport (msg : String)
  | bodyRead (msg : String)
  | bodyClose (msg : String)
  | headerMissing
  | wrongHeader
  | emptyNtlm
  | base64Err (msg : String)
  | sessionCreate (msg : String)
  | challengeParse (msg : String)
  | challengeProcess (msg : String)
  | authGenerate (msg : String)
  deriving DecidableEq

/-- What a call to the handshake returns, together with the request object
as it stands afterwards (the source mutates the caller's request in place)
and the trace of observable events. -/
structure RTOutcome where
  resp : Option HttpResponse
  err : Option RTError
  reqAfter : HttpRequest
  events : List Event
  deriving DecidableEq

/-! ### The external NTLM session engine and the environment -/

/-- Modelled from the spec: the black-box contract of the external NTLM
session engine (`github.com/sematext/go-ntlm/ntlm`) plus the package-level
`Negotiate()` of `ntlm.go`, which returns a fixed Negotiate message byte
slice.  Parsed challenges are opaque handles (`Nat`). -/
structure Engine where
  negotiate : List Nat
  createSession : Except String Unit
  parseChallengeMessage : List Nat → Except String Nat
  processChallengeMessage : Nat → Except String Unit
  generateAuthenticateMessage : Except String (List Nat)

/-- The environment of one `RoundTrip` call: `oracle i` is the result of the
`i`-th `client.Do` call (counted across both handshake attempts), and
`engine` is the session engine. -/
structure Env where
  oracle : Nat → DoResult
  engine : Engine

/-- The transport value: credentials, optional inner round-tripper and
optional cookie jar (`NtlmTransport` of the source). -/
structure NtlmTransport where
  Domain : String
  User : String
  Password : String
  Workstation : String
  RoundTripper : Option String
  Jar : Option String
  deriving DecidableEq

/-- Lines 26-33: build the internal client, taking the inner transport and
the jar from the `NtlmTransport` when they are non-nil. -/
def mkClient (t : NtlmTransport) : HttpClient :=
  let c : HttpClient := { transport := none, jar := none }
  let c := match t.RoundTripper with
    | some rt => { c with transport := some rt }
    | none => c
  match t.Jar with
  | some j => { c with jar := some j }
  | none => c

/-! ### Header-value scanning (lines 72-81) -/

/-- Whitespace as trimmed by `strings.TrimSpace` (ASCII fragment). -/
def isSpaceChar (c : Char) : Bool := c = ' ' ∨ c = '\t' ∨ c = '\n' ∨ c = '\r'

/-- Model of `strings.TrimSpace`: drop leading and trailing whitespace. -/
def trimSpace (s : String) : String :=
  String.mk (((s.toList.dropWhile isSpaceChar).reverse.dropWhile isSpaceChar).reverse)

/-- Model of `strings.HasPrefix(h, "NTLM")`: the value starts with the four
characters `NTLM`. -/
def ntlmMatches (h : String) : Bool := h.toList.take 4 = ['N', 'T', 'L', 'M']

/-- Model of `h[4:]`: the value with the four-character `NTLM` prefix removed. -/
def dropScheme (h : String) : String := String.mk (h.toList.drop 4)

/-- Lines 73-81: scan the `WWW-Authenticate` values in order; at the first
value starting with `NTLM`, record it as found with its whitespace-trimmed
remainder and stop.  Returns `(ntlmChallengeFound, ntlmChallengeString)`. -/
def scanNtlm : List String → Bool × String
  | [] => (false, "")
  | h :: rest =>
      if ntlmMatches h then (true, trimSpace (dropScheme h)) else scanNtlm rest

/-- Modelled from the spec: the scheme token of a `WWW-Authenticate` value,
its maximal initial run of non-whitespace characters.  The spec's claims
about header selection are phrased in terms of this token; the source itself
never computes it. -/
def schemeToken (h : String) : String :=
  String.mk (h.toList.takeWhile (fun c => !(isSpaceChar c)))

/-! ### The handshake (`ntlmRoundTrip`, lines 44-125) -/

/-- Line 46-47: the fresh probe request — a GET to the original request's
URL with an empty body, whose only header is the Authorization header
carrying the base64 Negotiate message. -/
def probeRequest (env : Env) (req : HttpRequest) : HttpRequest :=
  { method := "GET"
    url := req.url
    headers := [("Authorization", "NTLM " ++ EncBase64 env.engine.negotiate)]
    body := "" }

/-- Line 120: the original request with its Authorization header set to the
base64 Authenticate message. -/
def authRequest (req : HttpRequest) (authBytes : List Nat) : HttpRequest :=
  { req with headers := headerSet req.headers "Authorization" ("NTLM " ++ EncBase64 authBytes) }

/-- Lines 66-121: the part of the handshake after the 401 probe body has
been drained and closed.  `n` is the oracle index of the next `Do` call,
`ev` the events so far, `hs` the `WWW-Authenticate` values of the probe
response. -/
def doChallenge (env : Env) (client : HttpClient) (n : Nat) (req : HttpRequest)
    (ev : List Event) (hs : List String) : RTOutcome :=
  if hs.length = 0 then ⟨none, some RTError.headerMissing, req, ev⟩
  else
    if (scanNtlm hs).2 = "" then
      if (scanNtlm hs).1 then ⟨none, some RTError.emptyNtlm, req, ev⟩
      else ⟨none, some RTError.wrongHeader, req, ev⟩
    else
      match DecBase64 (scanNtlm hs).2 with
      | Except.error e => ⟨none, some (RTError.base64Err e), req, ev⟩
      | Except.ok challengeBytes =>
        match env.engine.createSession with
        | Except.error e => ⟨none, some (RTError.sessionCreate e), req, ev⟩
        | Except.ok _ =>
          match env.engine.parseChallengeMessage challengeBytes with
          | Except.error e => ⟨none, some (RTError.challengeParse e), req, ev⟩
          | Except.ok challenge =>
            match env.engine.processChallengeMessage challenge with
            | Except.error e => ⟨none, some (RTError.challengeProcess e), req, ev⟩
            | Except.ok _ =>
              match env.engine.generateAuthenticateMessage with
              | Except.error e => ⟨none, some (RTError.authGenerate e), req, ev⟩
              | Except.ok authBytes =>
                match env.oracle n with
                | DoResult.fail e =>
                    ⟨none, some (RTError.transport e), authRequest req authBytes,
                      ev ++ [Event.send client (authRequest req authBytes)]⟩
                | DoResult.ok fresp =>
                    ⟨some fresp, none, authRequest req authBytes,
                      ev ++ [Event.send client (authRequest req authBytes)]⟩

/-- Lines 44-125: one full handshake attempt.  Sends the probe; a transport
error aborts; a non-401 response is returned as-is; on a 401 the body is
drained and closed (read and close errors propagate) and the challenge is
handled by `doChallenge`. -/
def ntlmRoundTrip (env : Env) (client : HttpClient) (n : Nat) (req : HttpRequest) : RTOutcome :=
  match env.oracle n with
  | DoResult.fail e =>
      ⟨none, some (RTError.transport e), req, [Event.send client (probeRequest env req)]⟩
  | DoResult.ok resp =>
    if resp.statusCode = 401 then
      match resp.bodyReadErr with
      | some e =>
          ⟨none, some (RTError.bodyRead e), req, [Event.send client (probeRequest env req)]⟩
      | none =>
        match resp.bodyCloseErr with
        | some e =>
            ⟨none, some (RTError.bodyClose e), req,
              [Event.send client (probeRequest env req), Event.drainBody]⟩
        | none =>
            doChallenge env client (n + 1) req
              [Event.send client (probeRequest env req), Event.drainBody, Event.closeBody]
              resp.authHeaders
    else ⟨some resp, none, req, [Event.send client (probeRequest env req)]⟩

/-- The number of `Do` calls recorded in a trace. -/
def sendCount (ev : List Event) : Nat :=
  (ev.filter fun e => match e with | Event.send _ _ => true | _ => false).length

/-- Lines 35-41: the retry dispatch applied to the first attempt's outcome
`o1`.  When the first attempt failed with the empty-challenge sentinel
(`errors.Is(err, errEmptyNtlm)`), the handshake is run once more over the
same client with the request object as the first attempt left it, and that
second outcome is returned unchanged; any other outcome is returned as-is.
The second attempt's `Do` calls continue the oracle where the first attempt
stopped. -/
def retryStep (env : Env) (client : HttpClient) (o1 : RTOutcome) : RTOutcome :=
  match o1.err with
  | some e =>
    if e = RTError.emptyNtlm then
      ⟨(ntlmRoundTrip env client (sendCount o1.events) o1.reqAfter).resp,
       (ntlmRoundTrip env client (sendCount o1.events) o1.reqAfter).err,
       (ntlmRoundTrip env client (sendCount o1.events) o1.reqAfter).reqAfter,
       o1.events ++ (ntlmRoundTrip env client (sendCount o1.events) o1.reqAfter).events⟩
    else o1
  | none => o1

/-- Lines 25-42: the public `RoundTrip`.  Builds the client, runs the
handshake once, and applies the one-shot empty-challenge retry. -/
def RoundTrip (env : Env) (t : NtlmTransport) (req : HttpRequest) : RTOutcome :=
  retryStep env (mkClient t) (ntlmRoundTrip env (mkClient t) 0 req)

/-! ### Base64 round-trip -/

/-- Decoding a base64 character produced from a sextet value recovers the
value. -/
theorem decChar_encSextet : ∀ n : Nat, n < 64 → decChar (encSextet n) = some n := by decide

/-- The padding character is outside the alphabet. -/
theorem decChar_pad : decChar '=' = none := rfl

/-- Standard base64 is lossless on byte lists: decoding an encoding yields
the original bytes. -/
theorem decEnc : ∀ bs : List Nat, (∀ b ∈ bs, b < 256) →
    decB64Chars (encB64Bytes bs) = Except.ok bs
  | [], _ => rfl
  | [a], h => by
      have ha : a < 256 := h a (by simp)
      have h1 : decChar (encSextet (a / 4)) = some (a / 4) := decChar_encSextet _ (by omega)
      have h2 : decChar (encSextet (a % 4 * 16)) = some (a % 4 * 16) := decChar_encSextet _ (by omega)
      simp [encB64Bytes, decB64Chars, h1, h2, decChar_pad]
      omega
  | [a, b], h => by
      have ha : a < 256 := h a (by simp)
      have hb : b < 256 := h b (by simp)
      have h1 : decChar (encSextet (a / 4)) = some (a / 4) := decChar_encSextet _ (by omega)
      have h2 : decChar (encSextet (a % 4 * 16 + b / 16)) = some (a % 4 * 16 + b / 16) :=
        decChar_encSextet _ (by omega)
      have h3 : decChar (encSextet (b % 16 * 4)) = some (b % 16 * 4) :=
        decChar_encSextet _ (by omega)
      simp [encB64Bytes, decB64Chars, h1, h2, h3, decChar_pad]
      omega
  | a :: b :: c :: rest, h => by
      have ha : a < 256 := h a (by simp)
      have hb : b < 256 := h b (by simp)
      have hc : c < 256 := h c (by simp)
      have ih := decEnc rest (fun x hx => h x (by simp [hx]))
      have h1 : decChar (encSextet (a / 4)) = some (a / 4) := decChar_encSextet _ (by omega)
      have h2 : decChar (encSextet (a % 4 * 16 + b / 16)) = some (a % 4 * 16 + b / 16) :=
        decChar_encSextet _ (by omega)
      have h3 : decChar (encSextet (b % 16 * 4 + c / 64)) = some (b % 16 * 4 + c / 64) :=
        decChar_encSextet _ (by omega)
      have h4 : decChar (encSextet (c % 64)) = some (c % 64) := decChar_encSextet _ (by omega)
      simp [encB64Bytes, decB64Chars, h1, h2, h3, h4, ih, Except.map]
      omega

/-- Decoding inverts encoding: `DecBase64` after `EncBase64` is the
identity on byte lists. -/
theorem DecBase64_EncBase64 (bs : List Nat) (h : ∀ b ∈ bs, b < 256) :
    DecBase64 (EncBase64 bs) = Except.ok bs := by
  have : (EncBase64 bs).toList = encB64Bytes bs := rfl
  rw [DecBase64, this]
  exact decEnc bs h

/-! ### Helper lemmas on header scanning -/

/-- Scanning skips any run of non-matching values and stops at the first
value starting with `NTLM`, returning its trimmed remainder; later values
play no role. -/
theorem scanNtlm_found (pre : List String) (h : String) (post : List String)
    (hpre : ∀ x ∈ pre, ntlmMatches x = false) (hh : ntlmMatches h = true) :
    scanNtlm (pre ++ h :: post) = (true, trimSpace (dropScheme h)) := by
  induction pre with
  | nil => simp [scanNtlm, hh]
  | cons p ps ih =>
      have hp : ntlmMatches p = false := hpre p (by simp)
      simpa [scanNtlm, hp] using ih (fun x hx => hpre x (by simp [hx]))

/-- Scanning a list without any `NTLM`-prefixed value finds nothing. -/
theorem scanNtlm_none (hs : List String) (h : ∀ x ∈ hs, ntlmMatches x = false) :
    scanNtlm hs = (false, "") := by
  induction hs with
  | nil => rfl
  | cons p ps ih =>
      have hp : ntlmMatches p = false := h p (by simp)
      simpa [scanNtlm, hp] using ih (fun x hx => h x (by simp [hx]))

/-- A successful scan means the value list was non-empty. -/
theorem scanNtlm_found_ne_nil {hs : List String} {s : String}
    (h : scanNtlm hs = (true, s)) : hs.length ≠ 0 := by
  cases hs with
  | nil => simp [scanNtlm] at h
  | cons p ps => simp

/-! ### Helper lemmas on `doChallenge` -/

/-- Frame property of the challenge phase: either the request object is
untouched and no further request is sent, or the engine produced an
Authenticate message, the request's Authorization header was set from it,
and exactly that request was sent once, after all earlier events. -/
theorem doChallenge_frame (env : Env) (client : HttpClient) (n : Nat) (req : HttpRequest)
    (ev : List Event) (hs : List String) :
    ((doChallenge env client n req ev hs).reqAfter = req ∧
      (doChallenge env client n req ev hs).events = ev) ∨
    (∃ auth, env.engine.generateAuthenticateMessage = Except.ok auth ∧
      (doChallenge env client n req ev hs).reqAfter = authRequest req auth ∧
      (doChallenge env client n req ev hs).events =
        ev ++ [Event.send client (authRequest req auth)]) := by
  unfold doChallenge
  repeat' split
  all_goals try (right; exact ⟨_, by assumption, rfl, rfl⟩)
  all_goals simp

/-- The challenge phase yields the empty-challenge sentinel exactly when the
scan found an `NTLM`-prefixed value whose trimmed remainder is empty. -/
theorem doChallenge_empty_iff (env : Env) (client : HttpClient) (n : Nat) (req : HttpRequest)
    (ev : List Event) (hs : List String) :
    (doChallenge env client n req ev hs).err = some RTError.emptyNtlm ↔
      scanNtlm hs = (true, "") := by
  constructor
  · intro h
    unfold doChallenge at h
    repeat' split at h
    all_goals simp_all
    exact Prod.ext_iff.mpr ⟨by assumption, by assumption⟩
  · intro h
    have hlen : hs.length ≠ 0 := scanNtlm_found_ne_nil h
    simp [doChallenge, hlen, h]

/-- An error outcome of the challenge phase carries no response. -/
theorem doChallenge_err_resp (env : Env) (client : HttpClient) (n : Nat) (req : HttpRequest)
    (ev : List Event) (hs : List String) :
    (doChallenge env client n req ev hs).err.isSome →
      (doChallenge env client n req ev hs).resp = none := by
  unfold doChallenge
  repeat' split
  all_goals simp

/-- The happy path of the challenge phase: a found non-empty challenge that
decodes and is accepted by the engine leads to the original request being
sent with the Authenticate Authorization header, and the final `Do` result
is returned verbatim. -/
theorem doChallenge_success (env : Env) (client : HttpClient) (n : Nat) (req : HttpRequest)
    (ev : List Event) (hs : List String) (chal : String) (bytes : List Nat) (ch : Nat)
    (auth : List Nat)
    (h5 : scanNtlm hs = (true, chal)) (h6 : chal ≠ "")
    (h7 : DecBase64 chal = Except.ok bytes)
    (h8 : env.engine.createSession = Except.ok ())
    (h9 : env.engine.parseChallengeMessage bytes = Except.ok ch)
    (h10 : env.engine.processChallengeMessage ch = Except.ok ())
    (h11 : env.engine.generateAuthenticateMessage = Except.ok auth) :
    doChallenge env client n req ev hs =
      match env.oracle n with
      | DoResult.fail e =>
          ⟨none, some (RTError.transport e), authRequest req auth,
            ev ++ [Event.send client (authRequest req auth)]⟩
      | DoResult.ok fresp =>
          ⟨some fresp, none, authRequest req auth,
            ev ++ [Event.send client (authRequest req auth)]⟩ := by
  have hlen : hs.length ≠ 0 := scanNtlm_found_ne_nil h5
  cases horacle : env.oracle n <;>
    simp [doChallenge, hlen, h5, h6, h7, h8, h9, h10, h11, horacle]

/-! ### Helper lemmas on `ntlmRoundTrip` and `retryStep` -/

/-- Shape of a handshake attempt: either the request object is untouched and
the trace is the probe send, possibly followed by the drain and the close;
or the engine produced an Authenticate message and the trace is probe send,
drain, close, then the single send of the original request carrying the
Authenticate Authorization header, which is also how the request object is
left. -/
theorem ntlmRoundTrip_shape (env : Env) (client : HttpClient) (n : Nat) (req : HttpRequest) :
    ((ntlmRoundTrip env client n req).reqAfter = req ∧
      ((ntlmRoundTrip env client n req).events = [Event.send client (probeRequest env req)] ∨
       (ntlmRoundTrip env client n req).events =
         [Event.send client (probeRequest env req), Event.drainBody] ∨
       (ntlmRoundTrip env client n req).events =
         [Event.send client (probeRequest env req), Event.drainBody, Event.closeBody])) ∨
    (∃ auth, env.engine.generateAuthenticateMessage = Except.ok auth ∧
      (ntlmRoundTrip env client n req).reqAfter = authRequest req auth ∧
      (ntlmRoundTrip env client n req).events =
        [Event.send client (probeRequest env req), Event.drainBody, Event.closeBody,
         Event.send client (authRequest req auth)]) := by
  cases horacle : env.oracle n with
  | fail e => simp [ntlmRoundTrip, horacle]
  | ok resp =>
    by_cases h401 : resp.statusCode = 401
    · cases hread : resp.bodyReadErr with
      | some e => simp [ntlmRoundTrip, horacle, h401, hread]
      | none =>
        cases hclose : resp.bodyCloseErr with
        | some e => simp [ntlmRoundTrip, horacle, h401, hread, hclose]
        | none =>
          have hrw : ntlmRoundTrip env client n req =
              doChallenge env client (n + 1) req
                [Event.send client (probeRequest env req), Event.drainBody, Event.closeBody]
                resp.authHeaders := by
            simp [ntlmRoundTrip, horacle, h401, hread, hclose]
          rw [hrw]
          rcases doChallenge_frame env client (n + 1) req
              [Event.send client (probeRequest env req), Event.drainBody, Event.closeBody]
              resp.authHeaders with hfr | ⟨auth, hgen, hreq, hev⟩
          · exact Or.inl ⟨hfr.1, Or.inr (Or.inr hfr.2)⟩
          · exact Or.inr ⟨auth, hgen, hreq, hev⟩
    · simp [ntlmRoundTrip, horacle, h401]

/-- A handshake attempt on whose probe the client reports a 401 with body
read and close succeeding reduces to the challenge phase. -/
theorem ntlmRoundTrip_to_challenge (env : Env) (client : HttpClient) (n : Nat)
    (req : HttpRequest) (resp : HttpResponse)
    (h1 : env.oracle n = DoResult.ok resp) (h2 : resp.statusCode = 401)
    (h3 : resp.bodyReadErr = none) (h4 : resp.bodyCloseErr = none) :
    ntlmRoundTrip env client n req =
      doChallenge env client (n + 1) req
        [Event.send client (probeRequest env req), Event.drainBody, Event.closeBody]
        resp.authHeaders := by
  simp [ntlmRoundTrip, h1, h2, h3, h4]

/-- A handshake attempt fails with the empty-challenge sentinel exactly when
the probe got a 401, its body drained and closed cleanly, and the header
scan found an `NTLM`-prefixed value with an empty trimmed remainder. -/
theorem ntlmRoundTrip_empty_iff (env : Env) (client : HttpClient) (n : Nat)
    (req : HttpRequest) :
    (ntlmRoundTrip env client n req).err = some RTError.emptyNtlm ↔
      ∃ resp, env.oracle n = DoResult.ok resp ∧ resp.statusCode = 401 ∧
        resp.bodyReadErr = none ∧ resp.bodyCloseErr = none ∧
        scanNtlm resp.authHeaders = (true, "") := by
  constructor
  · intro h
    cases horacle : env.oracle n with
    | fail e => simp [ntlmRoundTrip, horacle] at h
    | ok resp =>
      by_cases h401 : resp.statusCode = 401
      · cases hread : resp.bodyReadErr with
        | some e => simp [ntlmRoundTrip, horacle, h401, hread] at h
        | none =>
          cases hclose : resp.bodyCloseErr with
          | some e => simp [ntlmRoundTrip, horacle, h401, hread, hclose] at h
          | none =>
            rw [ntlmRoundTrip_to_challenge env client n req resp horacle h401 hread hclose] at h
            exact ⟨resp, rfl, h401, hread, hclose, (doChallenge_empty_iff _ _ _ _ _ _).mp h⟩
      · simp [ntlmRoundTrip, horacle, h401] at h
  · rintro ⟨resp, h1, h2, h3, h4, h5⟩
    rw [ntlmRoundTrip_to_challenge env client n req resp h1 h2 h3 h4]
    exact (doChallenge_empty_iff _ _ _ _ _ _).mpr h5

/-- When a handshake attempt returns an error, the response it returns is
`nil`. -/
theorem ntlmRoundTrip_err_resp (env : Env) (client : HttpClient) (n : Nat)
    (req : HttpRequest) :
    (ntlmRoundTrip env client n req).err.isSome →
      (ntlmRoundTrip env client n req).resp = none := by
  cases horacle : env.oracle n with
  | fail e => simp [ntlmRoundTrip, horacle]
  | ok resp =>
    by_cases h401 : resp.statusCode = 401
    · cases hread : resp.bodyReadErr with
      | some e => simp [ntlmRoundTrip, horacle, h401, hread]
      | none =>
        cases hclose : resp.bodyCloseErr with
        | some e => simp [ntlmRoundTrip, horacle, h401, hread, hclose]
        | none =>
          rw [ntlmRoundTrip_to_challenge env client n req resp horacle h401 hread hclose]
          exact doChallenge_err_resp _ _ _ _ _ _
    · simp [ntlmRoundTrip, horacle, h401]

/-- An attempt that fails with the empty-challenge sentinel leaves the
request object exactly as it entered. -/
theorem ntlmRoundTrip_empty_reqAfter (env : Env) (client : HttpClient) (n : Nat)
    (req : HttpRequest) :
    (ntlmRoundTrip env client n req).err = some RTError.emptyNtlm →
    (ntlmRoundTrip env client n req).reqAfter = req := by
  intro h
  obtain ⟨resp, h1, h2, h3, h4, h5⟩ := (ntlmRoundTrip_empty_iff env client n req).mp h
  have hlen : resp.authHeaders.length ≠ 0 := scanNtlm_found_ne_nil h5
  rw [ntlmRoundTrip_to_challenge env client n req resp h1 h2 h3 h4]
  simp [doChallenge, hlen, h5]

/-- When the first attempt's outcome carries the empty-challenge sentinel,
the retry dispatch returns the second attempt's outcome unchanged (with the
traces concatenated). -/
theorem retryStep_of_empty (env : Env) (client : HttpClient) (o1 : RTOutcome)
    (h : o1.err = some RTError.emptyNtlm) :
    retryStep env client o1 =
      ⟨(ntlmRoundTrip env client (sendCount o1.events) o1.reqAfter).resp,
       (ntlmRoundTrip env client (sendCount o1.events) o1.reqAfter).err,
       (ntlmRoundTrip env client (sendCount o1.events) o1.reqAfter).reqAfter,
       o1.events ++ (ntlmRoundTrip env client (sendCount o1.events) o1.reqAfter).events⟩ := by
  simp [retryStep, h]

/-- When the first attempt's outcome carries any error other than the
empty-challenge sentinel, the retry dispatch returns it unchanged. -/
theorem retryStep_of_other (env : Env) (client : HttpClient) (o1 : RTOutcome) (e : RTError)
    (h : o1.err = some e) (hne : e ≠ RTError.emptyNtlm) :
    retryStep env client o1 = o1 := by
  simp [retryStep, h, hne]

/-- When the first attempt succeeded, the retry dispatch returns its outcome
unchanged. -/
theorem retryStep_of_none (env : Env) (client : HttpClient) (o1 : RTOutcome)
    (h : o1.err = none) : retryStep env client o1 = o1 := by
  simp [retryStep, h]

/-! ### Concrete fixtures for witnesses and counterexamples -/

/-- A session engine that accepts everything: Negotiate bytes `[1,2,3]`,
Authenticate bytes `[7,8,9]`. -/
def engineOk : Engine :=
  { negotiate := [1, 2, 3]
    createSession := Except.ok ()
    parseChallengeMessage := fun bs => Except.ok bs.length
    processChallengeMessage := fun _ => Except.ok ()
    generateAuthenticateMessage := Except.ok [7, 8, 9] }

/-- A transport with no custom inner round-tripper and no jar. -/
def t0 : NtlmTransport := ⟨"dom", "usr", "pw", "ws", none, none⟩

/-- A caller request with a method, a body and an unrelated header. -/
def req0 : HttpRequest := ⟨"POST", "http://example.test/x", [("X-Other", "v")], "payload"⟩

/-- A 200 response. -/
def resp200 : HttpResponse := ⟨200, [], none, none⟩

/-- A 401 response whose only `WWW-Authenticate` value is the bare `NTLM`
token (the empty-challenge server fault). -/
def resp401Empty : HttpResponse := ⟨401, ["NTLM"], none, none⟩

/-- A 401 response carrying a `Negotiate` value and then a valid base64
`NTLM` challenge. -/
def resp401Valid : HttpResponse := ⟨401, ["Negotiate abc", "NTLM AQID"], none, none⟩

/-- Server behaviour: empty challenge on the first probe, then a valid
challenge, then 200. -/
def envRetry : Env :=
  { oracle := fun n =>
      match n with
      | 0 => DoResult.ok resp401Empty
      | 1 => DoResult.ok resp401Valid
      | _ => DoResult.ok resp200
    engine := engineOk }

/-- Server behaviour: empty challenge on every probe. -/
def envEmpty2 : Env := { oracle := fun _ => DoResult.ok resp401Empty, engine := engineOk }

/-- Server behaviour: immediate 200. -/
def env200 : Env := { oracle := fun _ => DoResult.ok resp200, engine := engineOk }

/-- Server behaviour: a 401 whose only value is `NTLMAQID` — its scheme
token is `NTLMAQID`, not `NTLM`, yet it starts with the four characters
`NTLM` and carries a decodable payload. -/
def envGlued : Env :=
  { oracle := fun n =>
      match n with
      | 0 => DoResult.ok ⟨401, ["NTLMAQID"], none, none⟩
      | _ => DoResult.ok resp200
    engine := engineOk }

/-- Server behaviour: a 401 with a valid challenge at once, then 200. -/
def envValid : Env :=
  { oracle := fun n =>
      match n with
      | 0 => DoResult.ok resp401Valid
      | _ => DoResult.ok resp200
    engine := engineOk }

/-- Server behaviour: a 401 whose `NTLM` value has an undecodable payload. -/
def envBad64 : Env :=
  { oracle := fun _ => DoResult.ok ⟨401, ["NTLM %%"], none, none⟩, engine := engineOk }

/-- Server behaviour: a 401 with no `WWW-Authenticate` value at all. -/
def envMissing : Env :=
  { oracle := fun _ => DoResult.ok ⟨401, [], none, none⟩, engine := engineOk }

/-- Server behaviour: a 401 whose values hold no `NTLM`-prefixed entry. -/
def envWrong : Env :=
  { oracle := fun _ => DoResult.ok ⟨401, ["Negotiate abc", "Basic xyz"], none, none⟩
    engine := engineOk }

/-- Server behaviour: the probe send itself fails. -/
def envFail : Env := { oracle := fun _ => DoResult.fail "connection refused", engine := engineOk }

/-! ### The claims -/

/-- C1: if the first handshake attempt fails with the distinguished
empty-challenge error, `RoundTrip` runs the handshake exactly once more over
the same client with the request as the first attempt left it, and returns
that second attempt's outcome (response, error and request state) unchanged,
with no third attempt (the whole trace is the two attempts' traces); every
error other than the empty-challenge error is returned immediately with no
retry. -/
theorem claim_C1_retry_once (env : Env) (t : NtlmTransport) (req : HttpRequest) :
    ((ntlmRoundTrip env (mkClient t) 0 req).err = some RTError.emptyNtlm →
      RoundTrip env t req =
        ⟨(ntlmRoundTrip env (mkClient t)
            (sendCount (ntlmRoundTrip env (mkClient t) 0 req).events)
            (ntlmRoundTrip env (mkClient t) 0 req).reqAfter).resp,
         (ntlmRoundTrip env (mkClient t)
            (sendCount (ntlmRoundTrip env (mkClient t) 0 req).events)
            (ntlmRoundTrip env (mkClient t) 0 req).reqAfter).err,
         (ntlmRoundTrip env (mkClient t)
            (sendCount (ntlmRoundTrip env (mkClient t) 0 req).events)
            (ntlmRoundTrip env (mkClient t) 0 req).reqAfter).reqAfter,
         (ntlmRoundTrip env (mkClient t) 0 req).events ++
           (ntlmRoundTrip env (mkClient t)
              (sendCount (ntlmRoundTrip env (mkClient t) 0 req).events)
              (ntlmRoundTrip env (mkClient t) 0 req).reqAfter).events⟩) ∧
    ((ntlmRoundTrip env (mkClient t) 0 req).err = some RTError.emptyNtlm →
      (ntlmRoundTrip env (mkClient t) 0 req).reqAfter = req) ∧
    (∀ e, (ntlmRoundTrip env (mkClient t) 0 req).err = some e → e ≠ RTError.emptyNtlm →
      RoundTrip env t req = ntlmRoundTrip env (mkClient t) 0 req) := by
  refine ⟨?_, ntlmRoundTrip_empty_reqAfter env (mkClient t) 0 req, ?_⟩
  · intro h
    exact retryStep_of_empty env (mkClient t) _ h
  · intro e he hne
    exact retryStep_of_other env (mkClient t) _ e he hne

/-- C1 witness: a server that sends an empty challenge once, then a valid
one; the retry happens and its outcome is returned unchanged. -/
theorem claim_C1_retry_once_witness :
    RoundTrip envRetry t0 req0 =
      ⟨(ntlmRoundTrip envRetry (mkClient t0)
          (sendCount (ntlmRoundTrip envRetry (mkClient t0) 0 req0).events)
          (ntlmRoundTrip envRetry (mkClient t0) 0 req0).reqAfter).resp,
       (ntlmRoundTrip envRetry (mkClient t0)
          (sendCount (ntlmRoundTrip envRetry (mkClient t0) 0 req0).events)
          (ntlmRoundTrip envRetry (mkClient t0) 0 req0).reqAfter).err,
       (ntlmRoundTrip envRetry (mkClient t0)
          (sendCount (ntlmRoundTrip envRetry (mkClient t0) 0 req0).events)
          (ntlmRoundTrip envRetry (mkClient t0) 0 req0).reqAfter).reqAfter,
       (ntlmRoundTrip envRetry (mkClient t0) 0 req0).events ++
         (ntlmRoundTrip envRetry (mkClient t0)
            (sendCount (ntlmRoundTrip envRetry (mkClient t0) 0 req0).events)
            (ntlmRoundTrip envRetry (mkClient t0) 0 req0).reqAfter).events⟩ :=
  (claim_C1_retry_once envRetry t0 req0).1 (by decide)

/-- C2 counterexample: the source selects values by the four-character
prefix `NTLM`, not by an exact scheme token.  The single value `NTLMAQID`
has scheme token `NTLMAQID`, not `NTLM`, yet the scan selects it and uses
`AQID` as the challenge payload; and given `NTLMX aaa` before `NTLM bbb`,
the scan stops at the first value although its scheme token is `NTLMX`. -/
theorem claim_C2_counterexample :
    schemeToken "NTLMAQID" ≠ "NTLM" ∧
    scanNtlm ["NTLMAQID"] = (true, "AQID") ∧
    schemeToken "NTLMX aaa" ≠ "NTLM" ∧
    scanNtlm ["NTLMX aaa", "NTLM bbb"] = (true, "X aaa") := by decide

/-- C2 (amended): on a 401 probe the challenge selection picks the first
`WWW-Authenticate` value that starts with the four-character case-sensitive
prefix `NTLM`, and uses as payload that value with the first four characters
removed and surrounding whitespace trimmed; values without the prefix are
never selected, and values after the first prefix match are never
examined. -/
theorem claim_C2_amended :
    (∀ pre h post, (∀ x ∈ pre, ntlmMatches x = false) → ntlmMatches h = true →
      scanNtlm (pre ++ h :: post) = (true, trimSpace (dropScheme h))) ∧
    (∀ hs, (∀ x ∈ hs, ntlmMatches x = false) → scanNtlm hs = (false, "")) :=
  ⟨scanNtlm_found, scanNtlm_none⟩

/-- C2 witness: a `Negotiate` value is skipped, the first `NTLM` value is
taken with its trimmed payload, and a later `NTLM` value plays no role. -/
theorem claim_C2_amended_witness :
    scanNtlm (["Negotiate abc"] ++ "NTLM AQID" :: ["NTLM zzz"]) =
      (true, trimSpace (dropScheme "NTLM AQID")) :=
  claim_C2_amended.1 ["Negotiate abc"] "NTLM AQID" ["NTLM zzz"] (by decide) (by decide)

/-- C3: for a 401 probe with a selected non-empty, decodable challenge the
engine accepts, the handshake drains and closes the probe body before
sending the final request, sends the caller's original request with its
Authorization header set to `NTLM` plus the base64 Authenticate bytes, and
returns the final send's result verbatim; a probe body read or close error
is propagated immediately instead. -/
theorem claim_C3_authenticate :
    (∀ (env : Env) (client : HttpClient) (n : Nat) (req : HttpRequest)
        (resp : HttpResponse) (chal : String) (bytes : List Nat) (ch : Nat) (auth : List Nat),
      env.oracle n = DoResult.ok resp → resp.statusCode = 401 →
      resp.bodyReadErr = none → resp.bodyCloseErr = none →
      scanNtlm resp.authHeaders = (true, chal) → chal ≠ "" →
      DecBase64 chal = Except.ok bytes →
      env.engine.createSession = Except.ok () →
      env.engine.parseChallengeMessage bytes = Except.ok ch →
      env.engine.processChallengeMessage ch = Except.ok () →
      env.engine.generateAuthenticateMessage = Except.ok auth →
      authRequest req auth =
        { req with
            headers := headerSet req.headers "Authorization" ("NTLM " ++ EncBase64 auth) } ∧
      ntlmRoundTrip env client n req =
        match env.oracle (n + 1) with
        | DoResult.fail e =>
            ⟨none, some (RTError.transport e), authRequest req auth,
              [Event.send client (probeRequest env req), Event.drainBody, Event.closeBody,
               Event.send client (authRequest req auth)]⟩
        | DoResult.ok fresp =>
            ⟨some fresp, none, authRequest req auth,
              [Event.send client (probeRequest env req), Event.drainBody, Event.closeBody,
               Event.send client (authRequest req auth)]⟩) ∧
    (∀ (env : Env) (client : HttpClient) (n : Nat) (req : HttpRequest)
        (resp : HttpResponse) (e : String),
      env.oracle n = DoResult.ok resp → resp.statusCode = 401 →
      resp.bodyReadErr = some e →
      ntlmRoundTrip env client n req =
        ⟨none, some (RTError.bodyRead e), req, [Event.send client (probeRequest env req)]⟩) ∧
    (∀ (env : Env) (client : HttpClient) (n : Nat) (req : HttpRequest)
        (resp : HttpResponse) (e : String),
      env.oracle n = DoResult.ok resp → resp.statusCode = 401 →
      resp.bodyReadErr = none → resp.bodyCloseErr = some e →
      ntlmRoundTrip env client n req =
        ⟨none, some (RTError.bodyClose e), req,
          [Event.send client (probeRequest env req), Event.drainBody]⟩) := by
  refine ⟨?_, ?_, ?_⟩
  · intro env client n req resp chal bytes ch auth h1 h2 h3 h4 h5 h6 h7 h8 h9 h10 h11
    refine ⟨rfl, ?_⟩
    rw [ntlmRoundTrip_to_challenge env client n req resp h1 h2 h3 h4,
      doChallenge_success env client (n + 1) req _ _ chal bytes ch auth h5 h6 h7 h8 h9 h10 h11]
    rfl
  · intro env client n req resp e h1 h2 h3
    simp [ntlmRoundTrip, h1, h2, h3]
  · intro env client n req resp e h1 h2 h3 h4
    simp [ntlmRoundTrip, h1, h2, h3, h4]

/-- C3 witness: a valid challenge `NTLM AQID` leads to draining and closing
the probe body, then the single authenticated resend of the original
request, whose 200 answer is returned verbatim. -/
theorem claim_C3_authenticate_witness :
    authRequest req0 [7, 8, 9] =
      { req0 with
          headers :=
            headerSet req0.headers "Authorization" ("NTLM " ++ EncBase64 [7, 8, 9]) } ∧
     ntlmRoundTrip envValid (mkClient t0) 0 req0 =
       match envValid.oracle 1 with
       | DoResult.fail e =>
           ⟨none, some (RTError.transport e), authRequest req0 [7, 8, 9],
             [Event.send (mkClient t0) (probeRequest envValid req0), Event.drainBody,
              Event.closeBody, Event.send (mkClient t0) (authRequest req0 [7, 8, 9])]⟩
       | DoResult.ok fresp =>
           ⟨some fresp, none, authRequest req0 [7, 8, 9],
             [Event.send (mkClient t0) (probeRequest envValid req0), Event.drainBody,
              Event.closeBody, Event.send (mkClient t0) (authRequest req0 [7, 8, 9])]⟩ :=
  claim_C3_authenticate.1 envValid (mkClient t0) 0 req0 resp401Valid "AQID" [1, 2, 3]
    3 [7, 8, 9] rfl rfl rfl rfl (by decide) (by decide) rfl rfl rfl rfl rfl

/-- C4: the handshake fails with the distinguished empty-challenge sentinel
exactly when a selected `NTLM` value has an empty (or whitespace-only)
payload; any error other than the sentinel is returned by `RoundTrip` with
no retry; and a base64 decode failure of a non-empty payload is returned as
the distinct decode error, with no further request. -/
theorem claim_C4_error_taxonomy :
    (∀ (env : Env) (client : HttpClient) (n : Nat) (req : HttpRequest),
      (ntlmRoundTrip env client n req).err = some RTError.emptyNtlm ↔
        ∃ resp, env.oracle n = DoResult.ok resp ∧ resp.statusCode = 401 ∧
          resp.bodyReadErr = none ∧ resp.bodyCloseErr = none ∧
          scanNtlm resp.authHeaders = (true, "")) ∧
    (∀ (env : Env) (t : NtlmTransport) (req : HttpRequest) (e : RTError),
      (ntlmRoundTrip env (mkClient t) 0 req).err = some e → e ≠ RTError.emptyNtlm →
      RoundTrip env t req = ntlmRoundTrip env (mkClient t) 0 req) ∧
    (∀ (env : Env) (client : HttpClient) (n : Nat) (req : HttpRequest)
        (resp : HttpResponse) (chal : String) (m : String),
      env.oracle n = DoResult.ok resp → resp.statusCode = 401 →
      resp.bodyReadErr = none → resp.bodyCloseErr = none →
      scanNtlm resp.authHeaders = (true, chal) → chal ≠ "" →
      DecBase64 chal = Except.error m →
      ntlmRoundTrip env client n req =
        ⟨none, some (RTError.base64Err m), req,
          [Event.send client (probeRequest env req), Event.drainBody, Event.closeBody]⟩) := by
  refine ⟨ntlmRoundTrip_empty_iff, ?_, ?_⟩
  · intro env t req e he hne
    exact retryStep_of_other env (mkClient t) _ e he hne
  · intro env client n req resp chal m h1 h2 h3 h4 h5 h6 h7
    have hlen : resp.authHeaders.length ≠ 0 := scanNtlm_found_ne_nil h5
    rw [ntlmRoundTrip_to_challenge env client n req resp h1 h2 h3 h4]
    simp [doChallenge, hlen, h5, h6, h7]

/-- C4 witness: the bare `NTLM` value yields the sentinel, and the
undecodable payload `%%` yields the decode error with no second request. -/
theorem claim_C4_error_taxonomy_witness :
    (ntlmRoundTrip envEmpty2 (mkClient t0) 0 req0).err = some RTError.emptyNtlm ∧
    ntlmRoundTrip envBad64 (mkClient t0) 0 req0 =
      ⟨none, some (RTError.base64Err "illegal base64 data"), req0,
        [Event.send (mkClient t0) (probeRequest envBad64 req0), Event.drainBody,
         Event.closeBody]⟩ :=
  ⟨(claim_C4_error_taxonomy.1 envEmpty2 (mkClient t0) 0 req0).mpr
      ⟨resp401Empty, rfl, rfl, rfl, rfl, by decide⟩,
   claim_C4_error_taxonomy.2.2 envBad64 (mkClient t0) 0 req0 ⟨401, ["NTLM %%"], none, none⟩
      "%%" "illegal base64 data" rfl rfl rfl rfl (by decide) (by decide) rfl⟩

/-- C5: a non-401 probe response is returned by `RoundTrip` unchanged, with
exactly one request (the probe) sent and the caller's request untouched. -/
theorem claim_C5_non401_passthrough (env : Env) (t : NtlmTransport) (req : HttpRequest)
    (resp : HttpResponse) (h1 : env.oracle 0 = DoResult.ok resp)
    (h2 : resp.statusCode ≠ 401) :
    RoundTrip env t req =
      ⟨some resp, none, req, [Event.send (mkClient t) (probeRequest env req)]⟩ := by
  have hfirst : ntlmRoundTrip env (mkClient t) 0 req =
      ⟨some resp, none, req, [Event.send (mkClient t) (probeRequest env req)]⟩ := by
    simp [ntlmRoundTrip, h1, h2]
  unfold RoundTrip
  rw [hfirst]
  exact retryStep_of_none _ _ _ rfl

/-- C5 witness: an immediate 200 is passed through with a single probe
send. -/
theorem claim_C5_non401_passthrough_witness :
    RoundTrip env200 t0 req0 =
      ⟨some resp200, none, req0, [Event.send (mkClient t0) (probeRequest env200 req0)]⟩ :=
  claim_C5_non401_passthrough env200 t0 req0 resp200 rfl (by decide)

/-- C6 counterexample: the value `NTLMAQID` has scheme token `NTLMAQID`
(not `NTLM`), so the claim predicts the "wrong WWW-Authenticate header"
error, but the source's prefix match selects it and the handshake proceeds
(here to a successful authentication), so that error is not produced. -/
theorem claim_C6_counterexample :
    (["NTLMAQID"] ≠ ([] : List String)) ∧
    (∀ x ∈ ["NTLMAQID"], schemeToken x ≠ "NTLM") ∧
    (ntlmRoundTrip envGlued (mkClient t0) 0 req0).err ≠ some RTError.wrongHeader ∧
    (ntlmRoundTrip envGlued (mkClient t0) 0 req0).err = none := by decide

/-- C6 (amended): a 401 probe response with no `WWW-Authenticate` values
fails with the "header missing" error; one whose values are present but
contain no value starting with the prefix `NTLM` fails with the "wrong
WWW-Authenticate header" error; in both cases no final request is sent (the
trace stops after the probe send, drain and close). -/
theorem claim_C6_amended :
    (∀ (env : Env) (client : HttpClient) (n : Nat) (req : HttpRequest) (resp : HttpResponse),
      env.oracle n = DoResult.ok resp → resp.statusCode = 401 →
      resp.bodyReadErr = none → resp.bodyCloseErr = none → resp.authHeaders = [] →
      ntlmRoundTrip env client n req =
        ⟨none, some RTError.headerMissing, req,
          [Event.send client (probeRequest env req), Event.drainBody, Event.closeBody]⟩) ∧
    (∀ (env : Env) (client : HttpClient) (n : Nat) (req : HttpRequest) (resp : HttpResponse),
      env.oracle n = DoResult.ok resp → resp.statusCode = 401 →
      resp.bodyReadErr = none → resp.bodyCloseErr = none → resp.authHeaders ≠ [] →
      (∀ x ∈ resp.authHeaders, ntlmMatches x = false) →
      ntlmRoundTrip env client n req =
        ⟨none, some RTError.wrongHeader, req,
          [Event.send client (probeRequest env req), Event.drainBody, Event.closeBody]⟩) := by
  constructor
  · intro env client n req resp h1 h2 h3 h4 h5
    rw [ntlmRoundTrip_to_challenge env client n req resp h1 h2 h3 h4]
    simp [doChallenge, h5]
  · intro env client n req resp h1 h2 h3 h4 h5 h6
    have hscan : scanNtlm resp.authHeaders = (false, "") := scanNtlm_none _ h6
    have hlen : resp.authHeaders.length ≠ 0 := by
      intro hc
      exact h5 (List.length_eq_zero.mp hc)
    rw [ntlmRoundTrip_to_challenge env client n req resp h1 h2 h3 h4]
    simp [doChallenge, hlen, hscan]

/-- C6 witness: a 401 with no values yields "header missing"; a 401 with
only `Negotiate` and `Basic` values yields "wrong WWW-Authenticate header";
neither trace contains a second send. -/
theorem claim_C6_amended_witness :
    ntlmRoundTrip envMissing (mkClient t0) 0 req0 =
      ⟨none, some RTError.headerMissing, req0,
        [Event.send (mkClient t0) (probeRequest envMissing req0), Event.drainBody,
         Event.closeBody]⟩ ∧
    ntlmRoundTrip envWrong (mkClient t0) 0 req0 =
      ⟨none, some RTError.wrongHeader, req0,
        [Event.send (mkClient t0) (probeRequest envWrong req0), Event.drainBody,
         Event.closeBody]⟩ :=
  ⟨claim_C6_amended.1 envMissing (mkClient t0) 0 req0 ⟨401, [], none, none⟩
      rfl rfl rfl rfl rfl,
   claim_C6_amended.2 envWrong (mkClient t0) 0 req0 ⟨401, ["Negotiate abc", "Basic xyz"], none, none⟩
      rfl rfl rfl rfl (by decide) (by decide)⟩

/-- Every request sent during one handshake attempt goes over the client
the attempt was given. -/
theorem ntlmRoundTrip_send_client (env : Env) (client : HttpClient) (n : Nat)
    (req : HttpRequest) (c : HttpClient) (r : HttpRequest)
    (h : Event.send c r ∈ (ntlmRoundTrip env client n req).events) : c = client := by
  rcases ntlmRoundTrip_shape env client n req with ⟨_, hev | hev | hev⟩ | ⟨auth, _, _, hev⟩ <;>
    rw [hev] at h <;> simp at h <;> tauto

/-- Every request sent during `RoundTrip` (both attempts) goes over the one
internal client built from the transport. -/
theorem roundTrip_send_client (env : Env) (t : NtlmTransport) (req : HttpRequest)
    (c : HttpClient) (r : HttpRequest)
    (h : Event.send c r ∈ (RoundTrip env t req).events) : c = mkClient t := by
  unfold RoundTrip at h
  rcases herr : (ntlmRoundTrip env (mkClient t) 0 req).err with _ | e
  · rw [retryStep_of_none env (mkClient t) _ herr] at h
    exact ntlmRoundTrip_send_client _ _ _ _ _ _ h
  · by_cases he : e = RTError.emptyNtlm
    · subst he
      rw [retryStep_of_empty env (mkClient t) _ herr] at h
      simp only [List.mem_append] at h
      rcases h with h | h
      · exact ntlmRoundTrip_send_client _ _ _ _ _ _ h
      · exact ntlmRoundTrip_send_client _ _ _ _ _ _ h
    · rw [retryStep_of_other env (mkClient t) _ e herr he] at h
      exact ntlmRoundTrip_send_client _ _ _ _ _ _ h

/-- Every handshake attempt's trace begins with the probe send. -/
theorem ntlmRoundTrip_head (env : Env) (client : HttpClient) (n : Nat) (req : HttpRequest) :
    (ntlmRoundTrip env client n req).events.head? =
      some (Event.send client (probeRequest env req)) := by
  rcases ntlmRoundTrip_shape env client n req with ⟨_, hev | hev | hev⟩ | ⟨auth, _, _, hev⟩ <;>
    rw [hev] <;> rfl

/-- C7: every handshake attempt begins with a freshly built GET probe to the
original request's URL, with an empty body and exactly one Authorization
header carrying `NTLM` plus the base64 Negotiate message; all requests of
`RoundTrip` (probe, final and retry attempt) go over the single internal
client built from the transport; and a transport-level probe failure aborts
the attempt at once with only that send in the trace. -/
theorem claim_C7_probe :
    (∀ (env : Env) (client : HttpClient) (n : Nat) (req : HttpRequest),
      (ntlmRoundTrip env client n req).events.head? =
        some (Event.send client (probeRequest env req))) ∧
    (∀ (env : Env) (req : HttpRequest),
      (probeRequest env req).method = "GET" ∧
      (probeRequest env req).url = req.url ∧
      (probeRequest env req).body = "" ∧
      (probeRequest env req).headers =
        [("Authorization", "NTLM " ++ EncBase64 env.engine.negotiate)]) ∧
    (∀ (env : Env) (t : NtlmTransport) (req : HttpRequest) (c : HttpClient) (r : HttpRequest),
      Event.send c r ∈ (RoundTrip env t req).events → c = mkClient t) ∧
    (∀ (env : Env) (client : HttpClient) (n : Nat) (req : HttpRequest) (e : String),
      env.oracle n = DoResult.fail e →
      ntlmRoundTrip env client n req =
        ⟨none, some (RTError.transport e), req,
          [Event.send client (probeRequest env req)]⟩) := by
  refine ⟨ntlmRoundTrip_head, fun env req => ⟨rfl, rfl, rfl, rfl⟩, roundTrip_send_client, ?_⟩
  intro env client n req e h1
  simp [ntlmRoundTrip, h1]

/-- C7 witness: with both attempts exercised (empty challenge then a full
handshake), every sent request goes over the client built from `t0`, the
first trace entry is the probe send, and a failing probe aborts at once. -/
theorem claim_C7_probe_witness :
    (ntlmRoundTrip envRetry (mkClient t0) 0 req0).events.head? =
      some (Event.send (mkClient t0) (probeRequest envRetry req0)) ∧
    (probeRequest envRetry req0).headers =
      [("Authorization", "NTLM " ++ EncBase64 envRetry.engine.negotiate)] ∧
    (Event.send (mkClient t0) (probeRequest envRetry req0) ∈ (RoundTrip envRetry t0 req0).events →
      mkClient t0 = mkClient t0) ∧
    ntlmRoundTrip envFail (mkClient t0) 0 req0 =
      ⟨none, some (RTError.transport "connection refused"), req0,
        [Event.send (mkClient t0) (probeRequest envFail req0)]⟩ :=
  ⟨claim_C7_probe.1 envRetry (mkClient t0) 0 req0,
   (claim_C7_probe.2.1 envRetry req0).2.2.2,
   claim_C7_probe.2.2.1 envRetry t0 req0 (mkClient t0) (probeRequest envRetry req0),
   claim_C7_probe.2.2.2 envFail (mkClient t0) 0 req0 "connection refused" rfl⟩

/-- C8: the caller's request object is only ever changed by setting its
Authorization header in the final authenticate step: its method, URL, body
and all other headers are preserved in every execution; on the
empty-challenge path the request leaves the attempt exactly as it entered
(so the retry reuses it unmodified); and whenever it is modified, the
modified request is the one request sent once at the end of the attempt's
trace. -/
theorem claim_C8_request_mutation :
    (∀ (env : Env) (client : HttpClient) (n : Nat) (req : HttpRequest),
      (ntlmRoundTrip env client n req).reqAfter.method = req.method ∧
      (ntlmRoundTrip env client n req).reqAfter.url = req.url ∧
      (ntlmRoundTrip env client n req).reqAfter.body = req.body ∧
      (ntlmRoundTrip env client n req).reqAfter.headers.filter
          (fun p => !(p.1 == "Authorization")) =
        req.headers.filter (fun p => !(p.1 == "Authorization"))) ∧
    (∀ (env : Env) (client : HttpClient) (n : Nat) (req : HttpRequest),
      (ntlmRoundTrip env client n req).err = some RTError.emptyNtlm →
      (ntlmRoundTrip env client n req).reqAfter = req) ∧
    (∀ (env : Env) (client : HttpClient) (n : Nat) (req : HttpRequest),
      (ntlmRoundTrip env client n req).reqAfter = req ∨
      (∃ auth, env.engine.generateAuthenticateMessage = Except.ok auth ∧
        (ntlmRoundTrip env client n req).reqAfter = authRequest req auth ∧
        (ntlmRoundTrip env client n req).events =
          [Event.send client (probeRequest env req), Event.drainBody, Event.closeBody,
           Event.send client (authRequest req auth)])) := by
  refine ⟨?_, ?_, ?_⟩
  · intro env client n req
    rcases ntlmRoundTrip_shape env client n req with ⟨hreq, _⟩ | ⟨auth, _, hreq, _⟩ <;>
      rw [hreq]
    · exact ⟨rfl, rfl, rfl, rfl⟩
    · refine ⟨rfl, rfl, rfl, ?_⟩
      simp [authRequest, headerSet, List.filter_filter]
  · exact ntlmRoundTrip_empty_reqAfter
  · intro env client n req
    rcases ntlmRoundTrip_shape env client n req with ⟨hreq, _⟩ | ⟨auth, hgen, hreq, hev⟩
    · exact Or.inl hreq
    · exact Or.inr ⟨auth, hgen, hreq, hev⟩

/-- C8 witness: on the empty-challenge attempt the request object comes out
untouched, and on the authenticated attempt it comes out with only its
Authorization header set, having been sent exactly once at the end. -/
theorem claim_C8_request_mutation_witness :
    (ntlmRoundTrip envEmpty2 (mkClient t0) 0 req0).reqAfter = req0 ∧
    (ntlmRoundTrip envValid (mkClient t0) 0 req0).reqAfter.headers.filter
        (fun p => !(p.1 == "Authorization")) =
      req0.headers.filter (fun p => !(p.1 == "Authorization")) :=
  ⟨claim_C8_request_mutation.2.1 envEmpty2 (mkClient t0) 0 req0 (by decide),
   (claim_C8_request_mutation.1 envValid (mkClient t0) 0 req0).2.2.2⟩

/-- C9: whenever `RoundTrip` returns an error, the response returned
alongside it is `nil`; the caller never sees a partial response together
with a handshake error. -/
theorem claim_C9_nil_resp_on_error (env : Env) (t : NtlmTransport) (req : HttpRequest) :
    (RoundTrip env t req).err.isSome → (RoundTrip env t req).resp = none := by
  unfold RoundTrip
  rcases herr : (ntlmRoundTrip env (mkClient t) 0 req).err with _ | e
  · rw [retryStep_of_none env (mkClient t) _ herr]
    exact ntlmRoundTrip_err_resp env (mkClient t) 0 req
  · by_cases he : e = RTError.emptyNtlm
    · subst he
      rw [retryStep_of_empty env (mkClient t) _ herr]
      exact ntlmRoundTrip_err_resp env (mkClient t) _ _
    · rw [retryStep_of_other env (mkClient t) _ e herr he]
      exact ntlmRoundTrip_err_resp env (mkClient t) 0 req

/-- C9 witness: a server sending an empty challenge on both attempts makes
`RoundTrip` fail, and the response returned with the error is `nil`. -/
theorem claim_C9_nil_resp_on_error_witness :
    (RoundTrip envEmpty2 t0 req0).resp = none :=
  claim_C9_nil_resp_on_error envEmpty2 t0 req0 (by decide)

/-- C10: the probe's Authorization header is `NTLM` plus a base64 payload,
and decoding that payload with `DecBase64` recovers exactly the engine's
Negotiate bytes — `DecBase64` after `EncBase64` is the identity there. -/
theorem claim_C10_base64_lossless (env : Env) (req : HttpRequest)
    (h : ∀ b ∈ env.engine.negotiate, b < 256) :
    (probeRequest env req).headers =
      [("Authorization", "NTLM " ++ EncBase64 env.engine.negotiate)] ∧
    DecBase64 (EncBase64 env.engine.negotiate) = Except.ok env.engine.negotiate :=
  ⟨rfl, DecBase64_EncBase64 _ h⟩

/-- C10 witness: for the fixture engine's Negotiate bytes `[1,2,3]` the
probe payload decodes back to exactly those bytes. -/
theorem claim_C10_base64_lossless_witness :
    DecBase64 (EncBase64 envRetry.engine.negotiate) =
      Except.ok envRetry.engine.negotiate :=
  (claim_C10_base64_lossless envRetry req0 (by decide)).2
